import Mathlib

/-!
Verification development for the Bio.PDB.molql query engine
(Expression AST, syntax front-ends, symbol registry, evaluator,
and the chain/residue-range selector used by the eager query call).

Python-side conventions used throughout the embedding:
* Python exceptions are modeled as `PyErr`, carrying the exception
  class name (as raised by the source, e.g. `KeyError`, `TypeError`,
  `MolQLFormatError`, pyparsing `ParseException`) and a message or payload.
* Python is run under CPython 2 semantics, as the source requires
  (`xrange`, `from StringIO import StringIO`): dict iteration yields keys,
  and `None` compares smaller than every integer.
* Python float literals appearing in queries are small decimal integers in
  every claim; they are represented exactly, as rationals.
-/

/-- A raised Python exception: class name plus message/payload. -/
structure PyErr where
  cls : String
  msg : String
  deriving DecidableEq, Repr

/-- Exceeding the interpreter recursion limit (models the fuel running out). -/
def pyRecursionErr : PyErr := PyErr.mk "RecursionError" "maximum recursion depth exceeded"

/-! ## External structure object model (Bio.PDB hierarchy)

The hierarchical structure collaborator (models, chains, residues, atoms)
is consumed via its documented interface: ordered child lists, residue id
triples (hetero flag, sequence number, insertion code), atom names. -/

structure Atom where
  name : String
  serial : Nat
  deriving DecidableEq, Repr

structure Residue where
  hetflag : String
  resseq : Int
  icode : String
  atoms : List Atom
  deriving DecidableEq, Repr

structure Chain where
  id : String
  residues : List Residue
  deriving DecidableEq, Repr

structure PModel where
  id : Nat
  chains : List Chain
  deriving DecidableEq, Repr

structure PStructure where
  models : List PModel
  deriving DecidableEq, Repr

/-! ## Expression AST (Bio/PDB/molql/syntax.py)

`Expression` holds a head and an ordered mapping from keys to argument
values; keys are Python ints (positional) or strings (named).  Literal
leaves are already decoded, so an argument value is a literal or a nested
`Expression`.  We flatten the Python value space reachable in the code
into one inductive `Value`; the `expr` constructor is the `Expression`
class, everything else is a plain (non-Expression) Python value. -/

inductive PyKey where
  | int (i : Int)
  | str (s : String)
  deriving DecidableEq, Repr

inductive Value where
  | str (s : String)
  | num (q : Rat)
  | bool (b : Bool)
  | pynone
  | pylist (l : List Value)
  | pyobj (l : List (String × Value))
  | frags (fs : List (List Atom))
  | expr (head : String) (args : List (PyKey × Value))
  deriving Repr

/-! ## Evaluation context (Bio/PDB/molql/query.py, class StructureContext)

The source context stores the query object and the bound structure; only
the structure is read during evaluation (the root expression is passed to
`_eval` directly), so the embedding keeps just the structure.  The source
attribute is named `structure`, a Lean keyword, hence `struct`. -/

structure StructureContext where
  struct : PStructure
  deriving Repr

/-! ## Symbol registry (Bio/PDB/molql/symbols.py)

A flat mapping from dotted symbol names to implementing functions.  An
implementation receives the context, the evaluated positional operands,
and the evaluated named operands, and returns a value or raises. -/

def Impl : Type :=
  StructureContext → List Value → List (String × Value) → Except PyErr Value

def SymTab : Type := List (String × Impl)

/-- `get_symbol`: a plain dict lookup; a missing name raises `KeyError`
carrying the looked-up name. -/
def get_symbol (tab : SymTab) (symbol_name : String) : Option Impl :=
  (tab.find? (fun p => p.1 == symbol_name)).map (fun p => p.2)

/-! ## structure.generator.atom-groups (Bio/PDB/molql/structure.py) -/

/-- `t is not None and not t(context, x)`: the skip condition applied to
each optional test in `atom_groups`. -/
def skipByTest {α : Type} (t : Option (StructureContext → α → Bool))
    (context : StructureContext) (x : α) : Bool :=
  match t with
  | none => false
  | some f => !f context x

set_option linter.unusedVariables false in
/-- `atom_groups(context, fragments=None, model_test=None, chain_test=None,
residue_test=None, atom_test=None)`.  The generator is modeled as the list
of fragments it yields.  Note the source computes `models` (restricted by
`itertools.islice(models, 1)` when `model_test is None`) but then loops
`for model in structure:`, so the `models` binding is dead code and every
model is traversed. -/
def atom_groups (context : StructureContext) (fragments : Value)
    (model_test : Option (StructureContext → PModel → Bool))
    (chain_test : Option (StructureContext → Chain → Bool))
    (residue_test : Option (StructureContext → Residue → Bool))
    (atom_test : Option (StructureContext → Atom → Bool)) : List (List Atom) :=
  let structure_ := context.struct
  -- ignore input fragments and iterate over the whole structure
  let models := match model_test with
    | none => structure_.models.take 1
    | some _ => structure_.models
  -- the loop below iterates the structure itself, not `models`
  structure_.models.flatMap (fun model =>
    if skipByTest model_test context model then [] else
    model.chains.flatMap (fun chain =>
      if skipByTest chain_test context chain then [] else
      chain.residues.flatMap (fun residue =>
        if skipByTest residue_test context residue then [] else
        residue.atoms.flatMap (fun atom =>
          if skipByTest atom_test context atom then [] else [[atom]]))))

/-- The registered implementation of `structure.generator.atom-groups`,
binding `*args`/`**kwargs` to the Python parameter list
`(fragments, model_test, chain_test, residue_test, atom_test)`.
An operand delivered by the evaluator is a plain `Value`, never a callable,
so a bound non-`None` test makes the generator raise `TypeError` at the
first test application; that outcome is modeled directly (the laziness of
the failure is abstracted away — no claim depends on its timing).  More
than five positional operands, or any named operand (the MolQL test names
contain hyphens and cannot match the underscore parameter names), raise
`TypeError` at binding time. -/
def atom_groups_impl : Impl := fun context args kwargs =>
  match args, kwargs with
  | [], [] => Except.ok (Value.frags (atom_groups context Value.pynone none none none none))
  | [f], [] => Except.ok (Value.frags (atom_groups context f none none none none))
  | _, _ => Except.error (PyErr.mk "TypeError" "atom_groups test operands are not callable")

/-- The process-wide symbol table after importing `Bio.PDB.molql.structure`
(`core.py` is not part of the sources; only the structure generator is
registered here). -/
def molqlSymbols : SymTab :=
  [("structure.generator.atom-groups", atom_groups_impl)]

/-! ## The recursive evaluator (Bio/PDB/molql/query.py, StructureContext._eval)

The source reads, with `expr.args` the argument dict:

```
impl = symbols.get_symbol(expr.head)
posargs = \x7b\x7d
kwargs = \x7b\x7d
for k, v in expr.args:
    try:
        posargs[int(k)] = v
    except ValueError:
        kwargs[k] = v
if len(posargs) > 0:
    maxarg = max(posargs.keys())
    args_evaled = (self._eval(posargs[i]) for i in xrange(maxarg))
else:
    args_evaled = []
kwargs_evaled = \x7bk: self._eval(v) for k, v in kwargs\x7d
return impl(self, *args_evaled, **kwargs_evaled)
```

Iterating a dict yields its *keys*, so `for k, v in expr.args` unpacks
each key: an int key raises `TypeError`; a string key unpacks iff it has
exactly two characters, making `k` and `v` the two characters of the key
(the stored argument value is never read).  The same happens again in the
`kwargs_evaled` comprehension.  The generator `args_evaled` runs over
`xrange(maxarg)` — indices `0..maxarg-1` — and is consumed while the call
`impl(...)` is being set up, after `kwargs_evaled` was built; a missing
index raises `KeyError` there, before the implementation body runs.

The embedding threads a fuel counter (the CPython recursion limit) and
returns, next to the result, the trace of symbol implementations actually
invoked, in invocation order. -/

/-- `int(k)` on a single-character string: its digit value, or `ValueError`
(modeled as `none`, which the source catches to route the pair to
`kwargs`). -/
def charToDigit (c : Char) : Option Nat :=
  if c.isDigit then some (c.toNat - 48) else none

/-- Python dict assignment `d[k] = v` on an association list: replace in
place if the key is present, else append. -/
def dictUpdate {α β : Type} [BEq α] (d : List (α × β)) (k : α) (v : β) : List (α × β) :=
  if d.any (fun p => p.1 == k) then
    d.map (fun p => if p.1 == k then (k, v) else p)
  else d ++ [(k, v)]

/-- The partition loop of `_eval`: iterate the keys of `expr.args`, unpack
each key, and route the unpacked pair by `int(k)`. -/
def partitionArgs : List (PyKey × Value) → List (Nat × String) → List (String × String) →
    Except PyErr (List (Nat × String) × List (String × String))
  | [], pos, kw => Except.ok (pos, kw)
  | (k, _v) :: rest, pos, kw =>
    match k with
    | PyKey.int _ => Except.error (PyErr.mk "TypeError" "int object is not iterable")
    | PyKey.str s =>
      match s.data with
      | [c1, c2] =>
        match charToDigit c1 with
        | some d => partitionArgs rest (dictUpdate pos d (String.mk [c2])) kw
        | none => partitionArgs rest pos (dictUpdate kw (String.mk [c1]) (String.mk [c2]))
      | _ => Except.error (PyErr.mk "ValueError" "unpacking key failed")

/-- `max(posargs.keys())`. -/
def maxKey (pos : List (Nat × String)) : Nat :=
  pos.foldl (fun m p => max m p.1) 0

/-- `posargs[i]`. -/
def lookupNat (pos : List (Nat × String)) (i : Nat) : Option String :=
  (pos.find? (fun p => p.1 == i)).map (fun p => p.2)

mutual

/-- `StructureContext._eval`, with an invocation trace. -/
def evalValue (tab : SymTab) (context : StructureContext) (fuel : Nat) (v : Value) :
    Except PyErr Value × List String :=
  match fuel, v with
  | 0, _ => (Except.error pyRecursionErr, [])
  | f + 1, Value.expr head args =>
    match get_symbol tab head with
    | none => (Except.error (PyErr.mk "KeyError" head), [])
    | some impl =>
      match partitionArgs args [] [] with
      | Except.error e => (Except.error e, [])
      | Except.ok (posargs, kwargs) =>
        let genIdxs := if posargs.isEmpty then [] else List.range (maxKey posargs)
        match kwargsEvaled tab context f (kwargs.map (fun p => p.1)) [] [] with
        | (Except.error e, tr) => (Except.error e, tr)
        | (Except.ok kwargs_evaled, tr1) =>
          match consumeGen tab context f posargs genIdxs [] [] with
          | (Except.error e, tr2) => (Except.error e, tr1 ++ tr2)
          | (Except.ok args_evaled, tr2) =>
            match impl context args_evaled kwargs_evaled with
            | Except.error e => (Except.error e, tr1 ++ tr2 ++ [head])
            | Except.ok r => (Except.ok r, tr1 ++ tr2 ++ [head])
  | _ + 1, w => (Except.ok w, [])

/-- The `kwargs_evaled` dict comprehension: iterate the *keys* of `kwargs`,
unpack each key, and evaluate the unpacked second component. -/
def kwargsEvaled (tab : SymTab) (context : StructureContext) (fuel : Nat)
    (ks : List String) (acc : List (String × Value)) (tr : List String) :
    Except PyErr (List (String × Value)) × List String :=
  match fuel, ks with
  | _, [] => (Except.ok acc, tr)
  | 0, _ => (Except.error pyRecursionErr, tr)
  | f + 1, k :: rest =>
    match k.data with
    | [c1, c2] =>
      match evalValue tab context f (Value.str (String.mk [c2])) with
      | (Except.error e, tr2) => (Except.error e, tr ++ tr2)
      | (Except.ok v, tr2) =>
        kwargsEvaled tab context f rest (dictUpdate acc (String.mk [c1]) v) (tr ++ tr2)
    | _ => (Except.error (PyErr.mk "ValueError" "unpacking key failed"), tr)

/-- Consumption of the `args_evaled` generator while `impl(...)` is set up:
for each index of `xrange(maxarg)`, look up `posargs[i]` (`KeyError` when
absent) and evaluate it. -/
def consumeGen (tab : SymTab) (context : StructureContext) (fuel : Nat)
    (posargs : List (Nat × String)) (idxs : List Nat) (acc : List Value) (tr : List String) :
    Except PyErr (List Value) × List String :=
  match fuel, idxs with
  | _, [] => (Except.ok acc, tr)
  | 0, _ => (Except.error pyRecursionErr, tr)
  | f + 1, i :: rest =>
    match lookupNat posargs i with
    | none => (Except.error (PyErr.mk "KeyError" (toString i)), tr)
    | some v =>
      match evalValue tab context f (Value.str v) with
      | (Except.error e, tr2) => (Except.error e, tr ++ tr2)
      | (Except.ok ev, tr2) => consumeGen tab context f posargs rest (acc ++ [ev]) (tr ++ tr2)

end

/-- `MolQL.apply`: build a context bound to the structure and evaluate the
root expression. -/
def MolQL_apply (tab : SymTab) (expression : Value) (s : PStructure) (fuel : Nat) :
    Except PyErr Value × List String :=
  evalValue tab (StructureContext.mk s) fuel expression

/-! ## The "range" syntax (Bio/PDB/molql/ranges_script.py)

Grammar, built on pyparsing (an external library — its combinator
semantics are modeled here: greedy `Word`/`Regex` token matching with
backtracking only at `Optional`/repetition boundaries):

```
inscode   = Word(alphanums)
signedInt = Regex("[+-]?[0-9]+")
resi      = signedInt + Optional(inscode)
chain_id  = Word(alphanums)
rangeExpr = chain_id + Optional("." + resi + Optional("-" + resi))
ranges    = delimitedList(rangeExpr)
```

The grammar elements are `leaveWhitespace`, and every input exercised by
the claims is whitespace-free, so no whitespace skipping is modeled. -/

/-- `ResRange`: a residue range.  An endpoint is `(sequence number,
insertion code)`; a missing endpoint is stored as `(None, " ")`.  The
source field `end` is a Lean keyword, hence `end_`. -/
structure ResRange where
  chain_id : String
  start : Option Int × String
  end_ : Option Int × String
  deriving DecidableEq, Repr

/-- `Word(alphanums)`: the longest nonempty run of ASCII alphanumerics. -/
def wordAlnum (s : List Char) : Option (String × List Char) :=
  let run := s.takeWhile (fun c => c.isAlphanum)
  if run.isEmpty then none else some (String.mk run, s.drop run.length)

/-- Numeric value of a digit run. -/
def natOfDigits (ds : List Char) : Nat :=
  ds.foldl (fun acc c => 10 * acc + (c.toNat - 48)) 0

/-- `Regex("[+-]?[0-9]+")`: optional sign, then a nonempty greedy digit
run (the sign is consumed only when digits follow). -/
def signedIntTok (s : List Char) : Option (Int × List Char) :=
  match s with
  | '+' :: rest =>
    let ds := rest.takeWhile (fun c => c.isDigit)
    if ds.isEmpty then none else some ((natOfDigits ds : Int), rest.drop ds.length)
  | '-' :: rest =>
    let ds := rest.takeWhile (fun c => c.isDigit)
    if ds.isEmpty then none else some (-(natOfDigits ds : Int), rest.drop ds.length)
  | _ =>
    let ds := s.takeWhile (fun c => c.isDigit)
    if ds.isEmpty then none else some ((natOfDigits ds : Nat), s.drop ds.length)

/-- `resi` with its `parseResi` action: `(number, " ")` when no insertion
code follows, else `(number, code)`. -/
def resiTok (s : List Char) : Option ((Int × String) × List Char) :=
  match signedIntTok s with
  | none => none
  | some (n, s1) =>
    match wordAlnum s1 with
    | none => some ((n, " "), s1)
    | some (w, s2) => some ((n, w), s2)

/-- `rangeExpr` with its `parseRange` action (the `ResRange` constructor
applied to the collected tokens); a failing `Optional` body backtracks to
the position before it. -/
def rangeExprTok (s : List Char) : Option (ResRange × List Char) :=
  match wordAlnum s with
  | none => none
  | some (chain, s1) =>
    let inner :
        Option ((Int × String) × Option (Int × String) × List Char) :=
      match s1 with
      | '.' :: s2 =>
        match resiTok s2 with
        | none => none
        | some (start, s3) =>
          match s3 with
          | '-' :: s4 =>
            match resiTok s4 with
            | none => some (start, none, s3)
            | some (e, s5) => some (start, some e, s5)
          | _ => some (start, none, s3)
      | _ => none
    match inner with
    | none => some (ResRange.mk chain (none, " ") (none, " "), s1)
    | some (start, none, s2) =>
      some (ResRange.mk chain (some start.1, start.2) (none, " "), s2)
    | some (start, some e, s2) =>
      some (ResRange.mk chain (some start.1, start.2) (some e.1, e.2), s2)

/-- `delimitedList`: after the first item, repeat `"," + rangeExpr`; the
repetition stops (leaving the comma unconsumed) when no item follows. -/
def rangesLoop (fuel : Nat) (acc : List ResRange) (s : List Char) :
    List ResRange × List Char :=
  match fuel with
  | 0 => (acc, s)
  | f + 1 =>
    match s with
    | ',' :: s1 =>
      match rangeExprTok s1 with
      | none => (acc, s)
      | some (r, s2) => rangesLoop f (acc ++ [r]) s2
    | _ => (acc, s)

/-- `rangesBNF().parseString(text, True)` — parse the whole text as a
range list (`parseAll=True`, as the test suite invokes it; leftover input
raises pyparsing `ParseException`, the realization of the taxonomy entry
`SyntaxError`). -/
def rangesParseAll (text : String) : Except PyErr (List ResRange) :=
  match rangeExprTok text.data with
  | none => Except.error (PyErr.mk "ParseException" "Expected rangeExpr")
  | some (r, rest) =>
    match rangesLoop (rest.length + 1) [r] rest with
    | (rs, rest2) =>
      if rest2.isEmpty then Except.ok rs
      else Except.error (PyErr.mk "ParseException" "Expected end of text")

/-! ## The eager query path (Bio/PDB/molql/query.py: ChainSelector,
MolQL.__call__) and Bio/PDB/Dice.py: extract_to_structure -/

/-- Python 2 `<=` between an int-or-None and an int-or-None: `None`
compares smaller than every integer in CPython 2. -/
def pyLe : Option Int → Option Int → Bool
  | none, _ => true
  | some _, none => false
  | some a, some b => decide (a ≤ b)

/-- `re.match("[123 ]*H.*", name)` as a Boolean: some (possibly empty)
leading run of characters from `1 2 3 space` followed by `H`. -/
def hydrogenMatchL : List Char → Bool
  | [] => false
  | c :: rest =>
    c == 'H' || ((c == '1' || c == '2' || c == '3' || c == ' ') && hydrogenMatchL rest)

def hydrogenMatch (s : String) : Bool := hydrogenMatchL s.data

/-- Modelled from the spec: the selection collaborator
(`Bio.PDB.PDBIO.Select`, outside src/) exposes the four boolean predicates
`accept_model`/`accept_chain`/`accept_residue`/`accept_atom`; its base
implementation accepts every candidate.  `accept_residue` receives the
chain id explicitly here (the source reads `residue.get_parent().get_id()`).
The source predicates return `1`/`0`; modeled as `Bool`. -/
structure Select where
  accept_model : PModel → Bool
  accept_chain : Chain → Bool
  accept_residue : String → Residue → Bool
  accept_atom : Atom → Bool

/-- `ChainSelector(ranges)` from Bio/PDB/molql/query.py.  `accept_model`
is inherited from the base `Select` (accept everything).  `accept_residue`
rejects hetero residues, then accepts iff some range has the right chain
id and `r.start[0] <= resseq <= r.end[0]` under Python 2 comparison (the
non-blank insertion code warning is a side effect and is not modeled).
`accept_atom` rejects names matching `[123 ]*H.*`. -/
def ChainSelector (ranges : List ResRange) : Select :=
  { accept_model := fun _ => true
    accept_chain := fun chain => ranges.any (fun r => chain.id == r.chain_id)
    accept_residue := fun chain_id residue =>
      if residue.hetflag != " " then false
      else ranges.any (fun r =>
        chain_id == r.chain_id
          && pyLe r.start.1 (some residue.resseq)
          && pyLe (some residue.resseq) r.end_.1)
    accept_atom := fun atom => !hydrogenMatch atom.name }

/-- `build_residue`: an accepted residue is rebuilt with the atoms passing
`accept_atom` (segment-id bookkeeping is metadata and is not modeled). -/
def build_residue (select : Select) (res : Residue) : Residue :=
  { res with atoms := res.atoms.filter (fun a => select.accept_atom a) }

/-- `build_chain`: an accepted chain is rebuilt with its accepted residues. -/
def build_chain (select : Select) (chain : Chain) : Chain :=
  { chain with
    residues := (chain.residues.filter
      (fun r => select.accept_residue chain.id r)).map (build_residue select) }

/-- `build_model`: an accepted model is rebuilt with its accepted chains. -/
def build_model (select : Select) (model : PModel) : PModel :=
  { model with
    chains := (model.chains.filter
      (fun c => select.accept_chain c)).map (build_chain select) }

/-- `extract_to_structure(structure, select)` from Bio/PDB/Dice.py:
rebuild the structure, keeping exactly the accepted entities (an accepted
entity is kept even if all of its children are filtered out). -/
def extract_to_structure (s : PStructure) (select : Select) : PStructure :=
  { models := (s.models.filter (fun m => select.accept_model m)).map (build_model select) }

/-- `MolQL.__call__`: the eager convenience call.  For a range-format
query, `self.expression` stores the parsed `ResRange` list (the source
comment itself flags this as a misuse); `None` returns the structure
unchanged, otherwise the structure is reduced through
`extract_to_structure` with a `ChainSelector`. -/
def MolQL_call (expression : Option (List ResRange)) (s : PStructure) : PStructure :=
  match expression with
  | none => s
  | some ranges => extract_to_structure s (ChainSelector ranges)

/-! ## The Lisp-like "molql" syntax (Bio/PDB/molql/molql_script.py)

Grammar (pyparsing, default whitespace skipping — space, newline, tab —
before every terminal):

```
token        = Regex(one or more chars outside whitespace and ( ) braces quote colon)
string_s     = quotedString (quotes removed)
fnumber_s    = Regex([+-]?digits(.digits?)?((e|E)[+-]?digits)?)
bool_s       = CaselessKeyword(true) | CaselessKeyword(false)
literal_e    = string_s | fnumber_s | bool_s | token
arg_name_s   = Suppress(:) - token
kwargument_e = arg_name_s - expr_e
posargument_e = expr_e
arguments_e  = ZeroOrMore(posargument_e) - ZeroOrMore(kwargument_e)
apply_e      = Suppress(() - token - arguments_e - Suppress())
expr_e       = apply_e | literal_e
```

`parseArguments` assigns each argument the dict key `i if label is None
else label`, `i` being its index in the full argument list (positionals
precede named ones by the grammar, so positionals receive `0..p-1`).
Escape sequences inside quoted strings are not modeled (no claim input
contains a quoted string).  Running out of fuel is reported as a parse
failure; the fuel passed by `molql_loads` is always sufficient. -/

def skipWs (s : List Char) : List Char :=
  s.dropWhile (fun c => c == ' ' || c == '\n' || c == '\t')

def isTokenChar (c : Char) : Bool :=
  !(c.isWhitespace || c == '(' || c == ')' || c == Char.ofNat 123 ||
    c == Char.ofNat 125 || c == Char.ofNat 39 || c == Char.ofNat 34 || c == ':')

/-- The bare `token` terminal. -/
def tokenTok (s : List Char) : Option (String × List Char) :=
  let s1 := skipWs s
  let run := s1.takeWhile isTokenChar
  if run.isEmpty then none else some (String.mk run, s1.drop run.length)

/-- `quotedString` with the `removeQuotes` action. -/
def quotedTok (s : List Char) : Option (String × List Char) :=
  let s1 := skipWs s
  match s1 with
  | c :: rest =>
    if c == Char.ofNat 34 || c == Char.ofNat 39 then
      let content := rest.takeWhile (fun d => d != c)
      match rest.drop content.length with
      | _ :: rest2 => some (String.mk content, rest2)
      | [] => none
    else none
  | [] => none

/-- The float regex, matched greedily at the current position (no token
boundary is required after it, as with any pyparsing `Regex`);
`float(text)` is exact on the claim inputs and modeled as a rational. -/
def fnumberTok (s : List Char) : Option (Rat × List Char) :=
  let s0 := skipWs s
  let signed : Bool × List Char :=
    match s0 with
    | '+' :: r => (false, r)
    | '-' :: r => (true, r)
    | _ => (false, s0)
  let isNeg := signed.1
  let s1 := signed.2
  let ds := s1.takeWhile (fun c => c.isDigit)
  if ds.isEmpty then none else
  let s2 := s1.drop ds.length
  let fracPart : List Char × List Char :=
    match s2 with
    | '.' :: s3 => (s3.takeWhile (fun c => c.isDigit), s3.dropWhile (fun c => c.isDigit))
    | _ => ([], s2)
  let fs := fracPart.1
  let s4 := fracPart.2
  let expPart : Int × List Char :=
    match s4 with
    | c :: s5 =>
      if c == 'e' || c == 'E' then
        match s5 with
        | '+' :: s6 =>
          let es := s6.takeWhile (fun c => c.isDigit)
          if es.isEmpty then (0, s4) else ((natOfDigits es : Int), s6.drop es.length)
        | '-' :: s6 =>
          let es := s6.takeWhile (fun c => c.isDigit)
          if es.isEmpty then (0, s4) else (-(natOfDigits es : Int), s6.drop es.length)
        | _ =>
          let es := s5.takeWhile (fun c => c.isDigit)
          if es.isEmpty then (0, s4) else ((natOfDigits es : Int), s5.drop es.length)
      else (0, s4)
    | [] => (0, s4)
  -- value of the match under `float`: sign * (I + F / 10^k) * 10^e.
  -- Integer-valued matches (no fraction digits, no exponent) are computed
  -- by a plain cast, which is the same rational but keeps the computation
  -- free of gcd normalization (the kernel cannot reduce `Nat.gcd`).
  let magnitude : Rat :=
    if fs.isEmpty && expPart.1 == 0 then (natOfDigits ds : Rat)
    else ((natOfDigits ds : Rat) + (natOfDigits fs : Rat) / (10 : Rat) ^ fs.length)
      * (10 : Rat) ^ expPart.1
  some (if isNeg then -magnitude else magnitude, expPart.2)

def identChar (c : Char) : Bool := c.isAlphanum || c == '_' || c == '$'

/-- `CaselessKeyword(true) | CaselessKeyword(false)`: case-insensitive,
and the following character must not continue an identifier. -/
def boolTok (s : List Char) : Option (Bool × List Char) :=
  let s1 := skipWs s
  if (s1.take 4).map Char.toLower == ['t', 'r', 'u', 'e']
      && !((s1.drop 4).headD ' ' |> identChar) then
    some (true, s1.drop 4)
  else if (s1.take 5).map Char.toLower == ['f', 'a', 'l', 's', 'e']
      && !((s1.drop 5).headD ' ' |> identChar) then
    some (false, s1.drop 5)
  else none

/-- `literal_e` (a `MatchFirst`, in source order). -/
def literalTok (s : List Char) : Option (Value × List Char) :=
  match quotedTok s with
  | some (t, rest) => some (Value.str t, rest)
  | none =>
    match fnumberTok s with
    | some (q, rest) => some (Value.num q, rest)
    | none =>
      match boolTok s with
      | some (b, rest) => some (Value.bool b, rest)
      | none =>
        match tokenTok s with
        | some (t, rest) => some (Value.str t, rest)
        | none => none

/-- `parseArguments`: enumerate the argument pairs and assign dict keys. -/
def buildArgsAux : Nat → List (Option String × Value) → List (PyKey × Value) →
    List (PyKey × Value)
  | _, [], acc => acc
  | i, (label, v) :: rest, acc =>
    buildArgsAux (i + 1) rest
      (dictUpdate acc (match label with | none => PyKey.int i | some l => PyKey.str l) v)

def buildArgs (pairs : List (Option String × Value)) : List (PyKey × Value) :=
  buildArgsAux 0 pairs []

mutual

/-- `expr_e = apply_e | literal_e`. -/
def parseExpr (fuel : Nat) (s : List Char) : Option (Value × List Char) :=
  match fuel with
  | 0 => none
  | f + 1 =>
    match skipWs s with
    | '(' :: s2 =>
      match tokenTok s2 with
      | none => none
      | some (head, s3) =>
        match parsePosArgs f s3 [] with
        | none => none
        | some (posPairs, s4) =>
          match parseKwArgs f s4 posPairs with
          | none => none
          | some (pairs, s5) =>
            match skipWs s5 with
            | ')' :: s6 => some (Value.expr head (buildArgs pairs), s6)
            | _ => none
    | s1 => literalTok s1

/-- `ZeroOrMore(posargument_e)`: repeat `expr_e`, stopping (with the
position restored) at the first failure. -/
def parsePosArgs (fuel : Nat) (s : List Char) (acc : List (Option String × Value)) :
    Option (List (Option String × Value) × List Char) :=
  match fuel with
  | 0 => none
  | f + 1 =>
    match parseExpr f s with
    | none => some (acc, s)
    | some (v, s2) => parsePosArgs f s2 (acc ++ [(none, v)])

/-- `ZeroOrMore(kwargument_e)`: repeat `":" token expr_e`. -/
def parseKwArgs (fuel : Nat) (s : List Char) (acc : List (Option String × Value)) :
    Option (List (Option String × Value) × List Char) :=
  match fuel with
  | 0 => none
  | f + 1 =>
    match skipWs s with
    | ':' :: s2 =>
      match tokenTok s2 with
      | none => none
      | some (label, s3) =>
        match parseExpr f s3 with
        | none => none
        | some (v, s4) => parseKwArgs f s4 (acc ++ [(some label, v)])
    | _ => some (acc, s)

end

/-- `MolQLSyntax.loads`: `molscriptBNF().parseString(s)` — parse one
expression from the start of the text (`parseAll` is not set, so trailing
input is ignored); failure raises pyparsing `ParseException`. -/
def molql_loads (text : String) : Except PyErr Value :=
  match parseExpr (2 * text.length + 4) text.data with
  | none => Except.error (PyErr.mk "ParseException" "no match")
  | some (v, _) => Except.ok v

/-! ## The JSON syntax (Bio/PDB/molql/json_script.py)

`JSONSyntax.load_dict` consumes the dictionary produced by `json.loads`
(an external library), modeled as `JSONValue`.  The document shape is
`source/version/expression`; `parse_expression` turns a dict node into an
`Expression` (array-form args get positional *string* keys `str(i)`,
object-form args keep their keys as labels) and returns any non-dict node
unchanged as a leaf.  Heads are modeled as strings: every input reachable
in the claims carries a string `head` (Python would store any value there,
unusable downstream).  Numbers are modeled as exact rationals. -/

inductive JSONValue where
  | str (s : String)
  | num (q : Rat)
  | bool (b : Bool)
  | null
  | arr (l : List JSONValue)
  | obj (l : List (String × JSONValue))

/-- Dict lookup on a JSON object (`json.loads` never yields duplicate
keys). -/
def lookupJson (k : String) (kvs : List (String × JSONValue)) : Option JSONValue :=
  (kvs.find? (fun p => p.1 == k)).map (fun p => p.2)

mutual

/-- A non-dict node is returned unchanged; this is the identity embedding
of raw JSON data into the Python value space. -/
def jsonLeafToValue : JSONValue → Value
  | JSONValue.str s => Value.str s
  | JSONValue.num q => Value.num q
  | JSONValue.bool b => Value.bool b
  | JSONValue.null => Value.pynone
  | JSONValue.arr l => Value.pylist (jsonLeafList l)
  | JSONValue.obj l => Value.pyobj (jsonLeafObj l)

def jsonLeafList : List JSONValue → List Value
  | [] => []
  | x :: xs => jsonLeafToValue x :: jsonLeafList xs

def jsonLeafObj : List (String × JSONValue) → List (String × Value)
  | [] => []
  | (k, v) :: xs => (k, jsonLeafToValue v) :: jsonLeafObj xs

end

/-- The head string of a dict node known to carry one. -/
def jsonHeadString : JSONValue → String
  | JSONValue.str s => s
  | _ => ""

mutual

/-- `parse_expression` from `JSONSyntax.load_dict`. -/
def parse_expression (fuel : Nat) (node : JSONValue) : Except PyErr Value :=
  match fuel with
  | 0 => Except.error pyRecursionErr
  | f + 1 =>
    match node with
    | JSONValue.obj kvs =>
      match lookupJson "head" kvs with
      | none => Except.error (PyErr.mk "MolQLFormatError" "Illegal MolQL query (json). Missing head")
      | some h =>
        match lookupJson "args" kvs with
        | none => Except.ok (Value.expr (jsonHeadString h) [])
        | some (JSONValue.obj akvs) =>
          match parseArgsObj f akvs with
          | Except.error e => Except.error e
          | Except.ok pairs => Except.ok (Value.expr (jsonHeadString h) pairs)
        | some (JSONValue.arr l) =>
          match parseArgsArr f 0 l with
          | Except.error e => Except.error e
          | Except.ok pairs => Except.ok (Value.expr (jsonHeadString h) pairs)
        | some _ =>
          Except.error (PyErr.mk "ValueError" "Error Parsing MolQL (JSON): Unexpected args value")
    | leaf => Except.ok (jsonLeafToValue leaf)

/-- Object-form args: keep each object key as the argument label. -/
def parseArgsObj (fuel : Nat) (akvs : List (String × JSONValue)) :
    Except PyErr (List (PyKey × Value)) :=
  match fuel, akvs with
  | _, [] => Except.ok []
  | 0, _ => Except.error pyRecursionErr
  | f + 1, (name, n) :: rest =>
    match parse_expression f n with
    | Except.error e => Except.error e
    | Except.ok v =>
      match parseArgsObj f rest with
      | Except.error e => Except.error e
      | Except.ok pairs => Except.ok ((PyKey.str name, v) :: pairs)

/-- Array-form args: enumerate and use `str(i)` as the key. -/
def parseArgsArr (fuel : Nat) (i : Nat) (l : List JSONValue) :
    Except PyErr (List (PyKey × Value)) :=
  match fuel, l with
  | _, [] => Except.ok []
  | 0, _ => Except.error pyRecursionErr
  | f + 1, n :: rest =>
    match parse_expression f n with
    | Except.error e => Except.error e
    | Except.ok v =>
      match parseArgsArr f (i + 1) rest with
      | Except.error e => Except.error e
      | Except.ok pairs => Except.ok ((PyKey.str (toString i), v) :: pairs)

end

/-- `JSONSyntax.load_dict`: check for the `expression` member and parse
it; `source` and `version` are never read.  A non-dict document makes the
membership test `"expression" not in jsonDict` either succeed vacuously
(list or string without that substring, raising the same missing-expression
error) or raise `TypeError`; no claim reaches a non-dict document, and the
dict case is the faithful one. -/
def load_dict (fuel : Nat) (j : JSONValue) : Except PyErr Value :=
  match j with
  | JSONValue.obj kvs =>
    match lookupJson "expression" kvs with
    | none =>
      Except.error (PyErr.mk "MolQLFormatError" "Illegal MolQL query (json). Missing expression")
    | some e => parse_expression fuel e
  | JSONValue.arr _ =>
    Except.error (PyErr.mk "MolQLFormatError" "Illegal MolQL query (json). Missing expression")
  | _ => Except.error (PyErr.mk "TypeError" "argument is not iterable")

/-! ## Concrete fixtures used by the theorems below -/

def atomN : Atom := Atom.mk "N" 1
def atomCA : Atom := Atom.mk "CA" 2
def atomO : Atom := Atom.mk "O" 3
def hgAtom : Atom := Atom.mk "HG" 4
def hbAtom : Atom := Atom.mk "1HB" 5

/-- A structure with two models (one residue each; the second holds
`atomO`), for exercising the model-traversal default. -/
def twoModelStructure : PStructure :=
  PStructure.mk
    [PModel.mk 0 [Chain.mk "A" [Residue.mk " " 1 " " [atomN, atomCA]]],
     PModel.mk 1 [Chain.mk "A" [Residue.mk " " 1 " " [atomO]]]]

def ctx2 : StructureContext := StructureContext.mk twoModelStructure

def emptyStructure : PStructure := PStructure.mk []

def ctx0 : StructureContext := StructureContext.mk emptyStructure

/-- The bare-chain range parsed from `"B"`. -/
def bareB : ResRange := ResRange.mk "B" (none, " ") (none, " ")

/-- A one-chain structure with two ordinary residues of chain `B`. -/
def sB : PStructure :=
  PStructure.mk [PModel.mk 0 [Chain.mk "B"
    [Residue.mk " " 18 " " [atomN], Residue.mk " " 19 " " [atomCA]]]]

/-- The range parsed from `"B.18-20"`. -/
def rangeB1820 : ResRange := ResRange.mk "B" (some 18, " ") (some 20, " ")

/-- A residue of chain `B` inside the `18-20` range, with a carbon, a
mercury (`HG`), and a hydrogen (`1HB`). -/
def demoRes : Residue := Residue.mk " " 19 " " [atomCA, hgAtom, hbAtom]

def demoChain : Chain := Chain.mk "B" [demoRes]

/-- A JSON expression node whose nested `residue-test` argument lacks a
`head` member. -/
def nestedHeadless : JSONValue :=
  JSONValue.obj [("head", JSONValue.str "f"),
    ("args", JSONValue.obj [("residue-test", JSONValue.obj [("x", JSONValue.num 1)])])]

/-! ## Helper lemmas -/

theorem flatMap_single (l : List Atom) :
    (l.flatMap fun a => [[a]]) = l.map fun a => [a] := by
  induction l with
  | nil => rfl
  | cons a t ih => simp [List.flatMap_cons, ih]

theorem dictUpdate_append {α β : Type} [DecidableEq α] (d : List (α × β)) (k : α) (v : β)
    (h : ∀ p ∈ d, p.1 ≠ k) : dictUpdate d k v = d ++ [(k, v)] := by
  unfold dictUpdate
  rw [if_neg]
  simp only [List.any_eq_true, beq_iff_eq, not_exists]
  intro p hp
  exact h p hp.1 hp.2

theorem buildArgsAux_pos (pos : List Value) :
    ∀ (i : Nat) (acc : List (PyKey × Value)),
      (∀ p ∈ acc, ∀ j : Nat, i ≤ j → p.1 ≠ PyKey.int j) →
      buildArgsAux i (pos.map (fun v => ((none : Option String), v))) acc =
        acc ++ (List.enumFrom i pos).map (fun p => (PyKey.int (p.1 : Int), p.2)) := by
  induction pos with
  | nil => intro i acc _; simp [buildArgsAux, List.enumFrom]
  | cons v rest ih =>
    intro i acc hinv
    have hupd : dictUpdate acc (PyKey.int (i : Int)) v = acc ++ [(PyKey.int (i : Int), v)] := by
      apply dictUpdate_append
      intro p hp
      exact hinv p hp i (Nat.le_refl i)
    simp only [List.map_cons, buildArgsAux, hupd, List.enumFrom]
    rw [ih (i + 1) (acc ++ [(PyKey.int (i : Int), v)])]
    · simp
    · intro p hp j hj
      rcases List.mem_append.mp hp with hold | hnew
      · exact hinv p hold j (Nat.le_of_succ_le hj)
      · simp only [List.mem_singleton] at hnew
        subst hnew
        intro hk
        simp only [PyKey.int.injEq] at hk
        have : i = j := by exact_mod_cast hk
        omega

theorem parseArgsArr_keys (elems : List JSONValue) :
    ∀ (fuel i : Nat) (pairs : List (PyKey × Value)),
      parseArgsArr fuel i elems = Except.ok pairs →
      pairs.map Prod.fst = (List.range' i elems.length).map (fun j => PyKey.str (toString j)) := by
  induction elems with
  | nil =>
    intro fuel i pairs h
    cases fuel <;> simp [parseArgsArr] at h <;> simp [← h, List.range']
  | cons n rest ih =>
    intro fuel i pairs h
    match fuel with
    | 0 => simp [parseArgsArr] at h
    | f + 1 =>
      simp only [parseArgsArr] at h
      cases hp : parse_expression f n with
      | error e => rw [hp] at h; simp at h
      | ok v =>
        rw [hp] at h
        cases hr : parseArgsArr f (i + 1) rest with
        | error e => rw [hr] at h; simp at h
        | ok pairs2 =>
          rw [hr] at h
          simp only [Except.ok.injEq] at h
          subst h
          simp [List.range', ih f (i + 1) pairs2 hr]

theorem parseArgsObj_keys (akvs : List (String × JSONValue)) :
    ∀ (fuel : Nat) (pairs : List (PyKey × Value)),
      parseArgsObj fuel akvs = Except.ok pairs →
      pairs.map Prod.fst = akvs.map (fun p => PyKey.str p.1) := by
  induction akvs with
  | nil =>
    intro fuel pairs h
    cases fuel <;> simp [parseArgsObj] at h <;> simp [← h]
  | cons kv rest ih =>
    intro fuel pairs h
    match fuel with
    | 0 => simp [parseArgsObj] at h
    | f + 1 =>
      simp only [parseArgsObj] at h
      cases hp : parse_expression f kv.2 with
      | error e => rw [hp] at h; simp at h
      | ok v =>
        rw [hp] at h
        cases hr : parseArgsObj f rest with
        | error e => rw [hr] at h; simp at h
        | ok pairs2 =>
          rw [hr] at h
          simp only [Except.ok.injEq] at h
          subst h
          simp [ih f pairs2 hr]

/-! ## Claim theorems -/

/-- C1: invoking `structure.generator.atom-groups` with no `model_test`
is claimed to traverse only the first model.  The code instead traverses
every model (the islice-restricted `models` binding is dead code): on a
two-model structure the evaluated no-argument query yields one single-atom
fragment per atom of *both* models, in document order, not just the first
model.  This contradicts the function docstring (`Default: accept model 1`). -/
theorem c1_atom_groups_all_models :
    evalValue molqlSymbols ctx2 9 (Value.expr "structure.generator.atom-groups" []) =
      (Except.ok (Value.frags [[atomN], [atomCA], [atomO]]),
        ["structure.generator.atom-groups"])
    ∧ [[atomN], [atomCA], [atomO]] ≠ [[atomN], [atomCA]] := by
  exact ⟨rfl, by decide⟩

/-- C2 counterexample: with argument keys `0` and `2` (a gap at `1`) the
evaluation of the expression fails, but with a `TypeError` raised while
unpacking the first dict key in the partition loop, not with a
`MalformedArguments` error (no such error exists in the code); the trace
is empty, so no implementation ran. -/
theorem c2_gap_counterexample :
    evalValue molqlSymbols ctx0 5
      (Value.expr "structure.generator.atom-groups"
        [(PyKey.int 0, Value.str "x"), (PyKey.int 2, Value.str "y")]) =
      (Except.error (PyErr.mk "TypeError" "int object is not iterable"), [])
    ∧ (PyErr.mk "TypeError" "int object is not iterable").cls ≠ "MalformedArguments" := by
  exact ⟨rfl, by decide⟩

/-- C2 amended: for every Expression whose argument mapping has integer
keys (in particular any non-contiguous set such as `{0,2}`), and whose head
is registered, evaluation fails before the symbol implementation is
invoked — the implementation never runs (empty trace) — but with a
`TypeError` from unpacking the first integer key, not `MalformedArguments`. -/
theorem c2_gap_amended (tab : SymTab) (context : StructureContext) (fuel : Nat)
    (head : String) (impl : Impl) (i : Int) (v : Value) (rest : List (PyKey × Value))
    (h : get_symbol tab head = some impl) :
    evalValue tab context (fuel + 1) (Value.expr head ((PyKey.int i, v) :: rest)) =
      (Except.error (PyErr.mk "TypeError" "int object is not iterable"), []) := by
  simp [evalValue, h, partitionArgs]

theorem c2_gap_amended_witness :
    evalValue molqlSymbols ctx0 5
      (Value.expr "structure.generator.atom-groups"
        ((PyKey.int 0, Value.str "x") :: [(PyKey.int 2, Value.str "y")])) =
      (Except.error (PyErr.mk "TypeError" "int object is not iterable"), []) :=
  c2_gap_amended molqlSymbols ctx0 4 "structure.generator.atom-groups" atom_groups_impl
    0 (Value.str "x") [(PyKey.int 2, Value.str "y")] rfl

/-- C3: the claim says that with positional keys exactly `0..n-1` the
evaluator invokes the head implementation with all `n` evaluated
positional operands.  The code cannot: iterating the argument dict yields
bare keys, so evaluation of an expression with contiguous integer keys
`{0,1}` raises `TypeError` with an empty invocation trace — the registered
implementation is never called (and even the intended reading drops the
last operand, since the generator runs over `xrange(maxarg)`). -/
theorem c3_positional_invocation_code_bug :
    evalValue molqlSymbols ctx0 5
      (Value.expr "structure.generator.atom-groups"
        [(PyKey.int 0, Value.str "x"), (PyKey.int 1, Value.num 2)]) =
      (Except.error (PyErr.mk "TypeError" "int object is not iterable"), []) := rfl

/-- C4: evaluating an Expression whose head is not registered fails with
the lookup error carrying exactly that head name (a bare `KeyError`, the
realization of the design-level `UnknownSymbol`), immediately — before
any argument is examined — with an empty invocation trace, so the whole
evaluation aborts and zero fragments are yielded. -/
theorem c4_unknown_symbol (tab : SymTab) (context : StructureContext) (fuel : Nat)
    (head : String) (args : List (PyKey × Value))
    (h : get_symbol tab head = none) :
    evalValue tab context (fuel + 1) (Value.expr head args) =
      (Except.error (PyErr.mk "KeyError" head), []) := by
  simp [evalValue, h]

theorem c4_unknown_symbol_witness :
    evalValue molqlSymbols ctx0 1 (Value.expr "no.such.symbol" []) =
      (Except.error (PyErr.mk "KeyError" "no.such.symbol"), []) :=
  c4_unknown_symbol molqlSymbols ctx0 0 "no.such.symbol" [] rfl

/-- C5: range parsing.  `"A"` yields one item with chain `A` and
unbounded endpoints; `"A.1-10,B,C.1"` yields exactly the three claimed
items; `"1-2-3"` fails with the parse error (pyparsing
`ParseException`, the realization of the design-level `SyntaxError`). -/
theorem c5_range_parsing :
    rangesParseAll "A" = Except.ok [ResRange.mk "A" (none, " ") (none, " ")]
    ∧ rangesParseAll "A.1-10,B,C.1" = Except.ok
        [ResRange.mk "A" (some 1, " ") (some 10, " "),
         ResRange.mk "B" (none, " ") (none, " "),
         ResRange.mk "C" (some 1, " ") (none, " ")]
    ∧ ∃ e, rangesParseAll "1-2-3" = Except.error e ∧ e.cls = "ParseException" :=
  ⟨rfl, rfl, ⟨PyErr.mk "ParseException" "Expected end of text", rfl, rfl⟩⟩

/-- C6: a missing range endpoint is claimed to imply the corresponding
chain extremity, so the bare chain spec `"B"` should select the entire
chain.  Under the Python 2 comparison actually executed, a missing *end*
bound makes `resseq <= None` false for every residue, so `accept_residue`
rejects every residue of chain `B` (while the missing *start* comparison
`None <= resseq` does accept), and the eager extraction of a chain-`B`
structure through the bare range keeps the chain but zero residues.  This
contradicts the `ResRange` docstring (a missing endpoint implies the
beginning or end of the chain). -/
theorem c6_missing_end_code_bug :
    rangesParseAll "B" = Except.ok [bareB]
    ∧ (∀ n : Int, (ChainSelector [bareB]).accept_residue "B" (Residue.mk " " n " " []) = false)
    ∧ extract_to_structure sB (ChainSelector [bareB]) =
        PStructure.mk [PModel.mk 0 [Chain.mk "B" []]] :=
  ⟨rfl, fun _ => rfl, rfl⟩

/-- C7: Lisp-syntax parsing.  `"(f :a 1 :b 2)"` yields head `f` with the
named arguments `a` and `b` bound to `1.0` and `2.0`; `"(a 1 2)"` yields
positional keys `0,1`; `"(f)"` yields no arguments; `"(f (g))"` yields a
nested Expression at positional key `0`; and in general a run of
positional arguments is assigned the sequential integer keys `0,1,2,...`
in appearance order (named arguments use their label, as the examples
show). -/
theorem c7_lisp_parsing :
    molql_loads "(f :a 1 :b 2)" = Except.ok (Value.expr "f"
        [(PyKey.str "a", Value.num 1), (PyKey.str "b", Value.num 2)])
    ∧ molql_loads "(a 1 2)" = Except.ok (Value.expr "a"
        [(PyKey.int 0, Value.num 1), (PyKey.int 1, Value.num 2)])
    ∧ molql_loads "(f)" = Except.ok (Value.expr "f" [])
    ∧ molql_loads "(f (g))" = Except.ok (Value.expr "f"
        [(PyKey.int 0, Value.expr "g" [])])
    ∧ ∀ (pos : List Value),
        buildArgs (pos.map (fun v => ((none : Option String), v))) =
          pos.enum.map (fun p => (PyKey.int (p.1 : Int), p.2)) := by
  refine ⟨rfl, rfl, rfl, rfl, fun pos => ?_⟩
  have h := buildArgsAux_pos pos 0 [] (by intro p hp; simp at hp)
  simpa [buildArgs, List.enum] using h

/-- C8: JSON loading.  A dict node without a `head` member fails with the
malformed-query error (`MolQLFormatError`), at the top level and from a
nested argument node; array-form `args` are converted to positional
string keys `"0","1",...` in array order; object-form `args` keep each
object key as the argument label; and `load_dict` reads only the
`expression` member, so `source` and `version` cannot affect the result. -/
theorem c8_json_loading (fuel : Nat) (kvs kvs2 : List (String × JSONValue))
    (h : String) (elems : List JSONValue) (akvs : List (String × JSONValue)) :
    (lookupJson "head" kvs = none →
      parse_expression (fuel + 1) (JSONValue.obj kvs) =
        Except.error (PyErr.mk "MolQLFormatError" "Illegal MolQL query (json). Missing head"))
    ∧ parse_expression 4 nestedHeadless =
        Except.error (PyErr.mk "MolQLFormatError" "Illegal MolQL query (json). Missing head")
    ∧ (∀ pairs, lookupJson "head" kvs = some (JSONValue.str h) →
        lookupJson "args" kvs = some (JSONValue.arr elems) →
        parseArgsArr fuel 0 elems = Except.ok pairs →
        parse_expression (fuel + 1) (JSONValue.obj kvs) = Except.ok (Value.expr h pairs)
          ∧ pairs.map Prod.fst = (List.range elems.length).map (fun j => PyKey.str (toString j)))
    ∧ (∀ pairs, lookupJson "head" kvs = some (JSONValue.str h) →
        lookupJson "args" kvs = some (JSONValue.obj akvs) →
        parseArgsObj fuel akvs = Except.ok pairs →
        parse_expression (fuel + 1) (JSONValue.obj kvs) = Except.ok (Value.expr h pairs)
          ∧ pairs.map Prod.fst = akvs.map (fun p => PyKey.str p.1))
    ∧ (lookupJson "expression" kvs = lookupJson "expression" kvs2 →
        load_dict fuel (JSONValue.obj kvs) = load_dict fuel (JSONValue.obj kvs2)) := by
  refine ⟨?_, rfl, ?_, ?_, ?_⟩
  · intro hh
    simp [parse_expression, hh]
  · intro pairs hh ha hp
    constructor
    · simp [parse_expression, hh, ha, hp, jsonHeadString]
    · rw [parseArgsArr_keys elems fuel 0 pairs hp, List.range_eq_range']
  · intro pairs hh ha hp
    constructor
    · simp [parse_expression, hh, ha, hp, jsonHeadString]
    · exact parseArgsObj_keys akvs fuel pairs hp
  · intro he
    simp [load_dict, he]

theorem c8_json_loading_witness :
    parse_expression 9 (JSONValue.obj [("args", JSONValue.arr [])]) =
      Except.error (PyErr.mk "MolQLFormatError" "Illegal MolQL query (json). Missing head")
    ∧ parse_expression 9 (JSONValue.obj
        [("head", JSONValue.str "g"), ("args", JSONValue.arr [JSONValue.str "ALA"])]) =
      Except.ok (Value.expr "g" [(PyKey.str "0", Value.str "ALA")])
    ∧ load_dict 9 (JSONValue.obj
        [("source", JSONValue.str "molql-explorer"), ("version", JSONValue.str "0.1.0"),
         ("expression", JSONValue.str "x")]) =
      load_dict 9 (JSONValue.obj [("expression", JSONValue.str "x")]) := by
  have h1 := (c8_json_loading 8 [("args", JSONValue.arr [])] [] "g" [] []).1 rfl
  have h2 := ((c8_json_loading 8
      [("head", JSONValue.str "g"), ("args", JSONValue.arr [JSONValue.str "ALA"])] []
      "g" [JSONValue.str "ALA"] []).2.2.1
      [(PyKey.str "0", Value.str "ALA")] rfl rfl rfl).1
  have h3 := (c8_json_loading 9
      [("source", JSONValue.str "molql-explorer"), ("version", JSONValue.str "0.1.0"),
       ("expression", JSONValue.str "x")]
      [("expression", JSONValue.str "x")] "g" [] []).2.2.2.2 rfl
  exact ⟨h1, h2, h3⟩

/-- C9: the result of `atom_groups` does not depend on the `fragments`
operand (the source binds it and never reads it), and with no tests the
traversal covers the whole bound structure — every model, chain, residue
and atom in document order, one single-atom fragment per atom. -/
theorem c9_fragments_ignored (context : StructureContext) (f1 f2 : Value)
    (mt : Option (StructureContext → PModel → Bool))
    (ct : Option (StructureContext → Chain → Bool))
    (rt : Option (StructureContext → Residue → Bool))
    (tt : Option (StructureContext → Atom → Bool)) :
    atom_groups context f1 mt ct rt tt = atom_groups context f2 mt ct rt tt
    ∧ atom_groups context f1 none none none none =
        context.struct.models.flatMap (fun m => m.chains.flatMap (fun c =>
          c.residues.flatMap (fun r => r.atoms.map (fun a => [a])))) := by
  constructor
  · rfl
  · simp [atom_groups, skipByTest, flatMap_single]

/-- C10: under the eager convenience call (which reduces the structure via
`extract_to_structure` with a `ChainSelector`), an atom of a residue that
was accepted into the result is kept iff its name does not match
`[123 ]*H.*`; in particular the mercury atom `HG` matches and is
excluded even though it is not a hydrogen. -/
theorem c10_hydrogen_exclusion (ranges : List ResRange) (s : PStructure)
    (c : Chain) (r : Residue) (a : Atom)
    (hacc : (ChainSelector ranges).accept_residue c.id r = true)
    (hin : r ∈ c.residues) :
    MolQL_call (some ranges) s = extract_to_structure s (ChainSelector ranges)
    ∧ build_residue (ChainSelector ranges) r ∈ (build_chain (ChainSelector ranges) c).residues
    ∧ (a ∈ (build_residue (ChainSelector ranges) r).atoms ↔
        a ∈ r.atoms ∧ hydrogenMatch a.name = false)
    ∧ hydrogenMatch "HG" = true := by
  refine ⟨rfl, ?_, ?_, rfl⟩
  · simp only [build_chain, List.mem_map]
    exact ⟨r, List.mem_filter.mpr ⟨hin, hacc⟩, rfl⟩
  · simp [build_residue, ChainSelector, List.mem_filter]

theorem c10_hydrogen_exclusion_witness :
    MolQL_call (some [rangeB1820]) sB = extract_to_structure sB (ChainSelector [rangeB1820])
    ∧ build_residue (ChainSelector [rangeB1820]) demoRes ∈
        (build_chain (ChainSelector [rangeB1820]) demoChain).residues
    ∧ (hgAtom ∈ (build_residue (ChainSelector [rangeB1820]) demoRes).atoms ↔
        hgAtom ∈ demoRes.atoms ∧ hydrogenMatch hgAtom.name = false)
    ∧ hydrogenMatch "HG" = true :=
  c10_hydrogen_exclusion [rangeB1820] sB demoChain demoRes hgAtom rfl (by decide)
